import Mathlib

/-!
# Verification of the memoized selector library (`src/index.js`)

Shallow embedding of the library's definitions.

Modelling conventions:
* JavaScript values handled by a memoizer are drawn from an abstract type
  with decidable equality; JavaScript's strict equality `===` on that
  universe is decidable equality (each distinct object reference is a
  distinct element of the type, so `===` is just equality of elements).
* The `lastArgs` / `lastResult` slots are `Option`s, `none` playing the
  initial JavaScript `null`.
* A JavaScript function that may `throw` is embedded as a function into
  `Except E _`; an uncaught exception aborts the remaining statements of
  the enclosing function body, which the embeddings reproduce explicitly.
* `arguments` objects / argument lists are `List`s.
-/

namespace Reselect

/-- `defaultEqualityCheck(a, b) { return a === b }`: strict equality on the
value universe. -/
def defaultEqualityCheck {A : Type} [DecidableEq A] (a b : A) : Bool :=
  a = b

/-- `areArgumentsShallowlyEqual(equalityCheck, prev, next)`: false when either
argument list is `null` or the lengths differ; otherwise the element-wise
conjunction of `equalityCheck` over the two lists (the source's `for` loop). -/
def areArgumentsShallowlyEqual {A : Type} (equalityCheck : A → A → Bool) :
    Option (List A) → Option (List A) → Bool
  | none, _ => false
  | some _, none => false
  | some prev, some next =>
      if prev.length ≠ next.length then false
      else (prev.zip next).all fun p => equalityCheck p.1 p.2

/-- The private slot captured by the closure returned from `defaultMemoize`:
`lastArgs` and `lastResult`, both initially `null`. -/
structure MemoState (A R : Type) where
  lastArgs : Option (List A)
  lastResult : Option R
  deriving Repr, DecidableEq

/-- Fresh slot: `let lastArgs = null; let lastResult = null`. -/
def initMemoState {A R : Type} : MemoState A R := ⟨none, none⟩

/-- One call of the function returned by `defaultMemoize(func, equalityCheck)`.
Returns the call's result, the updated slot, and whether `func` was invoked.
On a cache hit `lastResult` is returned untouched and `lastArgs` is
overwritten; on a miss `lastResult = func.apply(null, arguments)` runs first
(a `throw` inside `func` aborts the call before either assignment), then
`lastArgs = arguments`. -/
def memoizedStep {A R E : Type} (func : List A → Except E R)
    (equalityCheck : A → A → Bool) (s : MemoState A R) (args : List A) :
    Except E (Option R) × MemoState A R × Bool :=
  if areArgumentsShallowlyEqual equalityCheck s.lastArgs (some args) then
    (Except.ok s.lastResult, ⟨some args, s.lastResult⟩, false)
  else
    match func args with
    | Except.error e => (Except.error e, s, true)
    | Except.ok r => (Except.ok (some r), ⟨some args, some r⟩, true)

/-- Run a sequence of calls against one memoized function, collecting the
final slot, how many times `func` was invoked, and the results in order. -/
def memoizedRun {A R E : Type} (func : List A → Except E R)
    (equalityCheck : A → A → Bool) (s : MemoState A R) :
    List (List A) → MemoState A R × Nat × List (Except E (Option R))
  | [] => (s, 0, [])
  | a :: rest =>
      let step := memoizedStep func equalityCheck s a
      let next := memoizedRun func equalityCheck step.2.1 rest
      (next.1, (if step.2.2 then 1 else 0) + next.2.1, step.1 :: next.2.2)

/-- Embed a total function as a non-throwing JavaScript function. -/
def wrapFn {A R E : Type} (f : List A → R) : List A → Except E R :=
  fun a => Except.ok (f a)

/- ## Basic characterizations of the comparator -/

theorem areArgumentsShallowlyEqual_none_left {A : Type}
    (equalityCheck : A → A → Bool) (n : Option (List A)) :
    areArgumentsShallowlyEqual equalityCheck none n = false := rfl

theorem areArgumentsShallowlyEqual_none_right {A : Type}
    (equalityCheck : A → A → Bool) (p : Option (List A)) :
    areArgumentsShallowlyEqual equalityCheck p none = false := by
  cases p <;> rfl

theorem areArgumentsShallowlyEqual_some_iff {A : Type}
    (equalityCheck : A → A → Bool) (prev next : List A) :
    areArgumentsShallowlyEqual equalityCheck (some prev) (some next) = true ↔
      List.Forall₂ (fun a b => equalityCheck a b = true) prev next := by
  rw [List.forall₂_iff_zip]
  simp only [areArgumentsShallowlyEqual]
  by_cases h : prev.length = next.length
  · simp [h, List.all_eq_true]
  · simp [h]

theorem areArgumentsShallowlyEqual_default_iff {A : Type} [DecidableEq A]
    (prev next : List A) :
    areArgumentsShallowlyEqual defaultEqualityCheck (some prev) (some next)
      = true ↔ prev = next := by
  rw [areArgumentsShallowlyEqual_some_iff]
  constructor
  · intro h
    rw [← List.forall₂_eq_eq_eq]
    exact h.imp fun a b hab => by
      simpa [defaultEqualityCheck] using hab
  · intro h
    subst h
    exact List.forall₂_same.mpr fun a _ => by simp [defaultEqualityCheck]

theorem areArgumentsShallowlyEqual_default_refl {A : Type} [DecidableEq A]
    (args : List A) :
    areArgumentsShallowlyEqual defaultEqualityCheck (some args) (some args)
      = true :=
  (areArgumentsShallowlyEqual_default_iff args args).mpr rfl

/- ## Branch lemmas for one memoized call -/

theorem memoizedStep_hit {A R E : Type} (func : List A → Except E R)
    (equalityCheck : A → A → Bool) (s : MemoState A R) (args : List A)
    (h : areArgumentsShallowlyEqual equalityCheck s.lastArgs (some args) = true) :
    memoizedStep func equalityCheck s args
      = (Except.ok s.lastResult, ⟨some args, s.lastResult⟩, false) := by
  simp [memoizedStep, h]

theorem memoizedStep_miss_ok {A R E : Type} (func : List A → Except E R)
    (equalityCheck : A → A → Bool) (s : MemoState A R) (args : List A) (r : R)
    (h : areArgumentsShallowlyEqual equalityCheck s.lastArgs (some args) = false)
    (hf : func args = Except.ok r) :
    memoizedStep func equalityCheck s args
      = (Except.ok (some r), ⟨some args, some r⟩, true) := by
  simp [memoizedStep, h, hf]

theorem memoizedStep_miss_error {A R E : Type} (func : List A → Except E R)
    (equalityCheck : A → A → Bool) (s : MemoState A R) (args : List A) (e : E)
    (h : areArgumentsShallowlyEqual equalityCheck s.lastArgs (some args) = false)
    (hf : func args = Except.error e) :
    memoizedStep func equalityCheck s args = (Except.error e, s, true) := by
  simp [memoizedStep, h, hf]

/- ## Claim theorems about the comparator and the memoizer -/

/-- C3: `areArgumentsShallowlyEqual(C, prev, next)` returns true iff neither
list is the `null` sentinel, the lengths agree, and `C` accepts every
positional pair; in particular it returns false when either side is the
sentinel or when the lengths differ. -/
theorem claim_C3 {A : Type} (equalityCheck : A → A → Bool)
    (p n : Option (List A)) :
    (areArgumentsShallowlyEqual equalityCheck p n = true ↔
      ∃ prev next, p = some prev ∧ n = some next ∧
        prev.length = next.length ∧
        ∀ (i : Nat) (h1 : i < prev.length) (h2 : i < next.length),
          equalityCheck (prev.get ⟨i, h1⟩) (next.get ⟨i, h2⟩) = true) ∧
    (p = none → areArgumentsShallowlyEqual equalityCheck p n = false) ∧
    (n = none → areArgumentsShallowlyEqual equalityCheck p n = false) ∧
    (∀ prev next, p = some prev → n = some next →
      prev.length ≠ next.length →
      areArgumentsShallowlyEqual equalityCheck p n = false) := by
  refine ⟨⟨?_, ?_⟩, ?_, ?_, ?_⟩
  · intro h
    cases p with
    | none =>
        rw [areArgumentsShallowlyEqual_none_left] at h
        exact absurd h Bool.false_ne_true
    | some prev =>
        cases n with
        | none =>
            rw [areArgumentsShallowlyEqual_none_right] at h
            exact absurd h Bool.false_ne_true
        | some next =>
            rw [areArgumentsShallowlyEqual_some_iff,
              List.forall₂_iff_get] at h
            exact ⟨prev, next, rfl, rfl, h.1, h.2⟩
  · rintro ⟨prev, next, rfl, rfl, hlen, hget⟩
    rw [areArgumentsShallowlyEqual_some_iff, List.forall₂_iff_get]
    exact ⟨hlen, hget⟩
  · rintro rfl
    exact areArgumentsShallowlyEqual_none_left equalityCheck n
  · rintro rfl
    exact areArgumentsShallowlyEqual_none_right equalityCheck p
  · rintro prev next rfl rfl hne
    simp [areArgumentsShallowlyEqual, hne]

theorem claim_C3_witness :
    ((none : Option (List Nat)) = none) ∧
    areArgumentsShallowlyEqual defaultEqualityCheck
      (none : Option (List Nat)) (some [1]) = false :=
  ⟨rfl, (claim_C3 defaultEqualityCheck none (some [1])).2.1 rfl⟩

/-- C2: under the default comparator, a memoized function invokes the wrapped
function once across two calls whose argument lists agree element-wise (and
both calls return the same result), and twice when the second list differs
at some position or in length. -/
theorem claim_C2 {A R : Type} [DecidableEq A] (f : List A → R) (a b : List A) :
    (a = b →
      (memoizedRun (wrapFn (E := String) f) defaultEqualityCheck
          initMemoState [a, b]).2.1 = 1 ∧
      (memoizedRun (wrapFn (E := String) f) defaultEqualityCheck
          initMemoState [a, b]).2.2
        = [Except.ok (some (f a)), Except.ok (some (f a))]) ∧
    (a ≠ b →
      (memoizedRun (wrapFn (E := String) f) defaultEqualityCheck
          initMemoState [a, b]).2.1 = 2) := by
  have hstep1 : memoizedStep (wrapFn (E := String) f) defaultEqualityCheck
      initMemoState a = (Except.ok (some (f a)), ⟨some a, some (f a)⟩, true) :=
    memoizedStep_miss_ok _ _ _ _ _ rfl rfl
  constructor
  · rintro rfl
    have hstep2 : memoizedStep (wrapFn (E := String) f) defaultEqualityCheck
        (⟨some a, some (f a)⟩ : MemoState A R) a
          = (Except.ok (some (f a)), ⟨some a, some (f a)⟩, false) :=
      memoizedStep_hit _ _ _ _ (areArgumentsShallowlyEqual_default_refl a)
    simp [memoizedRun, hstep1, hstep2]
  · intro hne
    have hmiss : areArgumentsShallowlyEqual defaultEqualityCheck
        (some a) (some b) = false :=
      Bool.eq_false_iff.mpr fun h =>
        hne ((areArgumentsShallowlyEqual_default_iff a b).mp h)
    have hstep2 : memoizedStep (wrapFn (E := String) f) defaultEqualityCheck
        (⟨some a, some (f a)⟩ : MemoState A R) b
          = (Except.ok (some (f b)), ⟨some b, some (f b)⟩, true) :=
      memoizedStep_miss_ok _ _ _ _ _ hmiss rfl
    simp [memoizedRun, hstep1, hstep2]

theorem claim_C2_witness :
    ((1 : Nat) :: [] = [1] →
      (memoizedRun (wrapFn (E := String) (fun l => l.headD 0))
          defaultEqualityCheck initMemoState [[1], [1]]).2.1 = 1) ∧
    (((1 : Nat) :: [] ≠ [2]) ∧
      (memoizedRun (wrapFn (E := String) (fun l => l.headD 0))
          defaultEqualityCheck initMemoState [[1], [2]]).2.1 = 2) :=
  ⟨fun h => ((claim_C2 (fun l => l.headD 0) [1] [1]).1 h).1,
   by decide,
   (claim_C2 (fun l => l.headD 0) [1] [2]).2 (by decide)⟩

/-- C4: a memoized call leaves `lastResult` untouched and skips the wrapped
function on a cache hit, overwrites `lastResult` with the freshly computed
value on a miss, and overwrites `lastArgs` with the current argument list in
both branches. -/
theorem claim_C4 {A R : Type} (f : List A → R) (equalityCheck : A → A → Bool)
    (s : MemoState A R) (args : List A) :
    ((memoizedStep (wrapFn (E := String) f) equalityCheck s args).2.1.lastArgs
        = some args) ∧
    (areArgumentsShallowlyEqual equalityCheck s.lastArgs (some args) = true →
      (memoizedStep (wrapFn (E := String) f) equalityCheck s
          args).2.1.lastResult = s.lastResult ∧
      (memoizedStep (wrapFn (E := String) f) equalityCheck s args).2.2
        = false) ∧
    (areArgumentsShallowlyEqual equalityCheck s.lastArgs (some args) = false →
      (memoizedStep (wrapFn (E := String) f) equalityCheck s
          args).2.1.lastResult = some (f args) ∧
      (memoizedStep (wrapFn (E := String) f) equalityCheck s args).2.2
        = true) := by
  by_cases h : areArgumentsShallowlyEqual equalityCheck s.lastArgs (some args)
      = true
  · rw [memoizedStep_hit _ _ _ _ h]
    simp [h]
  · rw [Bool.not_eq_true] at h
    rw [memoizedStep_miss_ok _ _ _ _ _ h rfl]
    simp [h]

theorem claim_C4_witness :
    areArgumentsShallowlyEqual defaultEqualityCheck
      (some [1]) ((some [1]) : Option (List Nat)) = true ∧
    (memoizedStep (wrapFn (E := String) (fun _ => 9)) defaultEqualityCheck
      (⟨some [1], some 5⟩ : MemoState Nat Nat) [1]).2.1.lastResult = some 5 :=
  ⟨by decide,
   ((claim_C4 (fun _ => 9) defaultEqualityCheck
      (⟨some [1], some 5⟩ : MemoState Nat Nat) [1]).2.1 (by decide)).1⟩

/-- C8: when a recomputing memoized call finds the wrapped function raising
an error, the error is returned and both cache fields are left unchanged, so
a subsequent call with the same argument list invokes the function again. -/
theorem claim_C8 {A R E : Type} (f : List A → Except E R)
    (equalityCheck : A → A → Bool) (s : MemoState A R) (args : List A) (e : E)
    (hmiss : areArgumentsShallowlyEqual equalityCheck s.lastArgs (some args)
      = false)
    (herr : f args = Except.error e) :
    memoizedStep f equalityCheck s args = (Except.error e, s, true) ∧
    (memoizedStep f equalityCheck
        (memoizedStep f equalityCheck s args).2.1 args).2.2 = true := by
  have h1 := memoizedStep_miss_error f equalityCheck s args e hmiss herr
  refine ⟨h1, ?_⟩
  rw [h1]
  rw [memoizedStep_miss_error f equalityCheck s args e hmiss herr]

theorem claim_C8_witness :
    areArgumentsShallowlyEqual defaultEqualityCheck
      (none : Option (List Nat)) (some [1]) = false ∧
    (fun (_ : List Nat) => (Except.error "boom" : Except String Nat)) [1]
      = Except.error "boom" ∧
    memoizedStep (fun _ => Except.error "boom") defaultEqualityCheck
      (initMemoState : MemoState Nat Nat) [1]
        = (Except.error "boom", initMemoState, true) :=
  ⟨rfl, rfl,
   (claim_C8 (fun _ => Except.error "boom") defaultEqualityCheck
      initMemoState [1] "boom" rfl rfl).1⟩

/- ## The selector composer (`createSelectorCreator`) -/

/-- The mutable state closed over by one selector built by
`createSelectorCreator(memoize, ...options)(...funcs)`: the `recomputations`
counter, the slot of the inner `memoizedResultFunc`, and the slot of the
outer `defaultMemoize`-wrapped selector. -/
structure SelectorState (V R : Type) where
  recomputations : Nat
  innerState : MemoState V R
  outerState : MemoState V R
  deriving Repr

/-- Fresh selector: counter 0, both memoizer slots cold. -/
def initSelectorState {V R : Type} : SelectorState V R := ⟨0, ⟨none, none⟩, ⟨none, none⟩⟩

/-- The outer selector's `for` loop
`params.push(dependencies[i].apply(null, arguments))`: applies each
dependency in order; an error raised by a dependency aborts the loop and
propagates. -/
def collectParams {V E : Type} (dependencies : List (List V → Except E V))
    (args : List V) : Except E (List V) :=
  match dependencies with
  | [] => Except.ok []
  | d :: rest =>
      match d args with
      | Except.error e => Except.error e
      | Except.ok v =>
          match collectParams rest args with
          | Except.error e => Except.error e
          | Except.ok vs => Except.ok (v :: vs)

/-- Embed a list of total dependency functions as non-throwing JavaScript
functions. -/
def wrapDeps {V E : Type} (deps : List (List V → V)) :
    List (List V → Except E V) :=
  deps.map fun f => fun a => Except.ok (f a)

/-- One invocation of a selector built by the composer, with the inner
memoizer instantiated (as in the source) by `defaultMemoize` applied to the
counting wrapper around `resultFunc` together with the configured
`equalityCheck` (`innerEq`), and the outer memoizer being
`defaultMemoize` with the default comparator. The outer layer compares the
incoming `args` to its slot; on a miss it extracts the dependency outputs
into `params` and hands them to the inner layer, which on its own miss runs
`recomputations++` and then `resultFunc` (whose error, if any, aborts all
remaining assignments of both layers). -/
def selectorStep {V R E : Type} [DecidableEq V]
    (dependencies : List (List V → Except E V))
    (resultFunc : List V → Except E R) (innerEq : V → V → Bool)
    (s : SelectorState V R) (args : List V) :
    Except E (Option R) × SelectorState V R :=
  if areArgumentsShallowlyEqual defaultEqualityCheck s.outerState.lastArgs
      (some args) then
    (Except.ok s.outerState.lastResult,
     { s with outerState := ⟨some args, s.outerState.lastResult⟩ })
  else
    match collectParams dependencies args with
    | Except.error e => (Except.error e, s)
    | Except.ok params =>
        if areArgumentsShallowlyEqual innerEq s.innerState.lastArgs
            (some params) then
          (Except.ok s.innerState.lastResult,
           { s with
              innerState := ⟨some params, s.innerState.lastResult⟩,
              outerState := ⟨some args, s.innerState.lastResult⟩ })
        else
          match resultFunc params with
          | Except.error e =>
              (Except.error e,
               { s with recomputations := s.recomputations + 1 })
          | Except.ok r =>
              (Except.ok (some r),
               { recomputations := s.recomputations + 1,
                 innerState := ⟨some params, some r⟩,
                 outerState := ⟨some args, some r⟩ })

/-- Run a sequence of selector invocations, keeping the final state. -/
def runSelector {V R E : Type} [DecidableEq V]
    (dependencies : List (List V → Except E V))
    (resultFunc : List V → Except E R) (innerEq : V → V → Bool)
    (s : SelectorState V R) (calls : List (List V)) : SelectorState V R :=
  calls.foldl (fun st a => (selectorStep dependencies resultFunc innerEq st a).2) s

theorem collectParams_wrapDeps {V E : Type} (deps : List (List V → V))
    (args : List V) :
    collectParams (wrapDeps (E := E) deps) args
      = Except.ok (deps.map fun f => f args) := by
  induction deps with
  | nil => rfl
  | cons d rest ih => simp [collectParams, wrapDeps, ih, wrapDeps] at ih ⊢

/- ## Branch lemmas for one selector invocation -/

theorem selectorStep_outer_hit {V R E : Type} [DecidableEq V]
    (dependencies : List (List V → Except E V))
    (resultFunc : List V → Except E R) (innerEq : V → V → Bool)
    (s : SelectorState V R) (args : List V)
    (h : areArgumentsShallowlyEqual defaultEqualityCheck
      s.outerState.lastArgs (some args) = true) :
    selectorStep dependencies resultFunc innerEq s args
      = (Except.ok s.outerState.lastResult,
         { s with outerState := ⟨some args, s.outerState.lastResult⟩ }) := by
  simp [selectorStep, h]

theorem selectorStep_inner_hit {V R E : Type} [DecidableEq V]
    (dependencies : List (List V → Except E V))
    (resultFunc : List V → Except E R) (innerEq : V → V → Bool)
    (s : SelectorState V R) (args params : List V)
    (houter : areArgumentsShallowlyEqual defaultEqualityCheck
      s.outerState.lastArgs (some args) = false)
    (hparams : collectParams dependencies args = Except.ok params)
    (hinner : areArgumentsShallowlyEqual innerEq
      s.innerState.lastArgs (some params) = true) :
    selectorStep dependencies resultFunc innerEq s args
      = (Except.ok s.innerState.lastResult,
         { s with
            innerState := ⟨some params, s.innerState.lastResult⟩,
            outerState := ⟨some args, s.innerState.lastResult⟩ }) := by
  simp [selectorStep, houter, hparams, hinner]

theorem selectorStep_recompute_ok {V R E : Type} [DecidableEq V]
    (dependencies : List (List V → Except E V))
    (resultFunc : List V → Except E R) (innerEq : V → V → Bool)
    (s : SelectorState V R) (args params : List V) (r : R)
    (houter : areArgumentsShallowlyEqual defaultEqualityCheck
      s.outerState.lastArgs (some args) = false)
    (hparams : collectParams dependencies args = Except.ok params)
    (hinner : areArgumentsShallowlyEqual innerEq
      s.innerState.lastArgs (some params) = false)
    (hrf : resultFunc params = Except.ok r) :
    selectorStep dependencies resultFunc innerEq s args
      = (Except.ok (some r),
         { recomputations := s.recomputations + 1,
           innerState := ⟨some params, some r⟩,
           outerState := ⟨some args, some r⟩ }) := by
  simp [selectorStep, houter, hparams, hinner, hrf]

theorem selectorStep_recompute_error {V R E : Type} [DecidableEq V]
    (dependencies : List (List V → Except E V))
    (resultFunc : List V → Except E R) (innerEq : V → V → Bool)
    (s : SelectorState V R) (args params : List V) (e : E)
    (houter : areArgumentsShallowlyEqual defaultEqualityCheck
      s.outerState.lastArgs (some args) = false)
    (hparams : collectParams dependencies args = Except.ok params)
    (hinner : areArgumentsShallowlyEqual innerEq
      s.innerState.lastArgs (some params) = false)
    (hrf : resultFunc params = Except.error e) :
    selectorStep dependencies resultFunc innerEq s args
      = (Except.error e,
         { s with recomputations := s.recomputations + 1 }) := by
  simp [selectorStep, houter, hparams, hinner, hrf]

/- ## Recomputation counting (claim C1) -/

/-- A warm selector invoked with arguments that are either identical to the
previous ones or whose dependency outputs the inner comparator accepts does
not recompute and keeps both memoizer slots warm. -/
theorem selectorStep_stable {V R E : Type} [DecidableEq V]
    (deps : List (List V → V)) (resultFunc : List V → Except E R)
    (innerEq : V → V → Bool) (s : SelectorState V R) (cur b : List V)
    (hout : s.outerState.lastArgs = some cur)
    (hin : s.innerState.lastArgs = some (deps.map fun f => f cur))
    (hrel : cur = b ∨ ∀ f ∈ deps, innerEq (f cur) (f b) = true) :
    (selectorStep (wrapDeps deps) resultFunc innerEq s b).2.recomputations
        = s.recomputations ∧
    (selectorStep (wrapDeps deps) resultFunc innerEq s b).2.outerState.lastArgs
        = some b ∧
    (selectorStep (wrapDeps deps) resultFunc innerEq s b).2.innerState.lastArgs
        = some (deps.map fun f => f b) := by
  by_cases houter : areArgumentsShallowlyEqual defaultEqualityCheck
      s.outerState.lastArgs (some b) = true
  · have hcb : cur = b := by
      rw [hout, areArgumentsShallowlyEqual_default_iff] at houter
      exact houter
    rw [selectorStep_outer_hit _ _ _ _ _ houter]
    subst hcb
    exact ⟨rfl, rfl, hin⟩
  · rw [Bool.not_eq_true] at houter
    have hcb : cur ≠ b := by
      intro h
      subst h
      rw [hout, areArgumentsShallowlyEqual_default_refl] at houter
      exact Bool.noConfusion houter
    have hpt : ∀ f ∈ deps, innerEq (f cur) (f b) = true :=
      hrel.resolve_left hcb
    have hinner : areArgumentsShallowlyEqual innerEq s.innerState.lastArgs
        (some (deps.map fun f => f b)) = true := by
      rw [hin, areArgumentsShallowlyEqual_some_iff,
        List.forall₂_map_left_iff, List.forall₂_map_right_iff]
      exact List.forall₂_same.mpr hpt
    rw [selectorStep_inner_hit _ _ _ _ _ _ houter
      (collectParams_wrapDeps deps b) hinner]
    exact ⟨rfl, rfl, rfl⟩

/-- Folding further calls over a warm selector along a chain of
hit-producing transitions preserves the recomputation count and keeps the
slots warm. -/
theorem runSelector_stable {V R E : Type} [DecidableEq V]
    (deps : List (List V → V)) (resultFunc : List V → Except E R)
    (innerEq : V → V → Bool) :
    ∀ (L : List (List V)) (cur : List V) (s : SelectorState V R),
      s.outerState.lastArgs = some cur →
      s.innerState.lastArgs = some (deps.map fun f => f cur) →
      List.Chain'
        (fun x y => x = y ∨ ∀ f ∈ deps, innerEq (f x) (f y) = true)
        (cur :: L) →
      (runSelector (wrapDeps deps) resultFunc innerEq s L).recomputations
        = s.recomputations
  | [], _, _, _, _, _ => rfl
  | b :: L, cur, s, hout, hin, hchain => by
      rw [List.chain'_cons] at hchain
      obtain ⟨hstep1, hstep2, hstep3⟩ :=
        selectorStep_stable deps resultFunc innerEq s cur b hout hin hchain.1
      have ih := runSelector_stable deps resultFunc innerEq L b
        (selectorStep (wrapDeps deps) resultFunc innerEq s b).2
        hstep2 hstep3 hchain.2
      show (runSelector (wrapDeps deps) resultFunc innerEq
        (selectorStep (wrapDeps deps) resultFunc innerEq s b).2
        L).recomputations = s.recomputations
      rw [ih, hstep1]

/-- The first invocation of a cold selector (with a non-throwing result
function) recomputes once and warms both slots. -/
theorem selectorStep_first {V R E : Type} [DecidableEq V]
    (deps : List (List V → V)) (resultFunc : List V → R)
    (innerEq : V → V → Bool) (a : List V) :
    (selectorStep (wrapDeps (E := E) deps) (wrapFn resultFunc) innerEq
        initSelectorState a).2
      = ⟨1,
         ⟨some (deps.map fun f => f a),
          some (resultFunc (deps.map fun f => f a))⟩,
         ⟨some a, some (resultFunc (deps.map fun f => f a))⟩⟩ := by
  have h := selectorStep_recompute_ok (wrapDeps (E := E) deps)
    (wrapFn resultFunc) innerEq initSelectorState a (deps.map fun f => f a)
    (resultFunc (deps.map fun f => f a)) rfl
    (collectParams_wrapDeps deps a) rfl (by rfl)
  rw [h]
  rfl

/-- Any nonempty call sequence whose consecutive elements are either
identical or have inner-comparator-identical dependency outputs leads to
exactly one recomputation from a cold start. -/
theorem runSelector_recomputations_one {V R : Type} [DecidableEq V]
    (deps : List (List V → V)) (resultFunc : List V → R)
    (innerEq : V → V → Bool) (L : List (List V)) (hne : L ≠ [])
    (hchain : List.Chain'
      (fun x y => x = y ∨ ∀ f ∈ deps, innerEq (f x) (f y) = true) L) :
    (runSelector (wrapDeps (E := String) deps) (wrapFn resultFunc) innerEq
        initSelectorState L).recomputations = 1 := by
  match L with
  | [] => exact absurd rfl hne
  | a :: L =>
      have hfirst := selectorStep_first (E := String) deps resultFunc innerEq a
      have hstable := runSelector_stable (E := String) deps
        (wrapFn resultFunc) innerEq L a
        ((selectorStep (wrapDeps (E := String) deps) (wrapFn resultFunc)
          innerEq initSelectorState a).2)
        (by rw [hfirst]) (by rw [hfirst]) hchain
      show (runSelector (wrapDeps (E := String) deps) (wrapFn resultFunc)
        innerEq (selectorStep (wrapDeps deps) (wrapFn resultFunc) innerEq
          initSelectorState a).2 L).recomputations = 1
      rw [hstable, hfirst]

/-- A relation that holds reflexively at `x` chains along any replication
of `x`. -/
theorem chain'_rel_replicate {α : Type} {S : α → α → Prop} (x : α)
    (h : S x x) : ∀ (n : Nat), List.Chain' S (List.replicate n x)
  | 0 => List.chain'_nil
  | 1 => List.chain'_singleton x
  | (n + 2) => by
      rw [List.replicate_succ, List.replicate_succ, List.chain'_cons]
      rw [← List.replicate_succ]
      exact ⟨h, chain'_rel_replicate x h (n + 1)⟩

/-- C1: a composed selector recomputes once, not once per call: `N ≥ 1`
calls with the very same argument list give `recomputations() = 1`, and `N`
calls with argument lists whose dependency outputs the inner comparator
accepts pairwise also give `recomputations() = 1`. -/
theorem claim_C1 {V R : Type} [DecidableEq V] (deps : List (List V → V))
    (resultFunc : List V → R) (innerEq : V → V → Bool) :
    (∀ (N : Nat) (args : List V), 1 ≤ N →
      (runSelector (wrapDeps (E := String) deps) (wrapFn resultFunc) innerEq
          initSelectorState (List.replicate N args)).recomputations = 1) ∧
    (∀ (L : List (List V)), L ≠ [] →
      List.Chain' (fun x y => ∀ f ∈ deps, innerEq (f x) (f y) = true) L →
      (runSelector (wrapDeps (E := String) deps) (wrapFn resultFunc) innerEq
          initSelectorState L).recomputations = 1) := by
  constructor
  · intro N args hN
    refine runSelector_recomputations_one deps resultFunc innerEq _ ?_ ?_
    · simp only [ne_eq, List.replicate_eq_nil_iff]
      omega
    · exact chain'_rel_replicate args (Or.inl rfl) N
  · intro L hne hchain
    exact runSelector_recomputations_one deps resultFunc innerEq L hne
      (hchain.imp fun _ _ h => Or.inr h)

theorem claim_C1_witness :
    (1 ≤ 3 ∧
      (runSelector (wrapDeps (E := String) [fun l => l.headD 0])
          (wrapFn fun l => l.headD (0 : Nat)) defaultEqualityCheck
          initSelectorState
          (List.replicate 3 [5])).recomputations = 1) ∧
    (([[1], [2]] : List (List Nat)) ≠ [] ∧
      (runSelector (wrapDeps (E := String) [fun _ => (7 : Nat)])
          (wrapFn fun l => l.headD (0 : Nat)) defaultEqualityCheck
          initSelectorState [[1], [2]]).recomputations = 1) :=
  ⟨⟨by decide,
    (claim_C1 [fun l => l.headD 0] (fun l => l.headD 0)
      defaultEqualityCheck).1 3 [5] (by decide)⟩,
   ⟨by decide,
    (claim_C1 [fun _ => (7 : Nat)] (fun l => l.headD 0)
      defaultEqualityCheck).2 [[1], [2]] (by decide)
      (by
        refine List.chain'_cons.mpr ⟨?_, List.chain'_singleton _⟩
        intro f hf
        rw [List.mem_singleton] at hf
        subst hf
        rfl)⟩⟩

/-- C9: when the inner layer actually recomputes and the user's result
function raises, the error propagates but the recomputation counter has
already been incremented. -/
theorem claim_C9 {V R E : Type} [DecidableEq V] (deps : List (List V → V))
    (resultFunc : List V → Except E R) (innerEq : V → V → Bool)
    (s : SelectorState V R) (args : List V) (e : E)
    (hout : areArgumentsShallowlyEqual defaultEqualityCheck
      s.outerState.lastArgs (some args) = false)
    (hin : areArgumentsShallowlyEqual innerEq s.innerState.lastArgs
      (some (deps.map fun f => f args)) = false)
    (herr : resultFunc (deps.map fun f => f args) = Except.error e) :
    selectorStep (wrapDeps deps) resultFunc innerEq s args
      = (Except.error e,
         { s with recomputations := s.recomputations + 1 }) :=
  selectorStep_recompute_error _ _ _ _ _ _ _ hout
    (collectParams_wrapDeps deps args) hin herr

theorem claim_C9_witness :
    areArgumentsShallowlyEqual defaultEqualityCheck
      (none : Option (List Nat)) (some [1]) = false ∧
    selectorStep (wrapDeps [fun l => l.headD 0])
      (fun _ => (Except.error "boom" : Except String Nat))
      defaultEqualityCheck initSelectorState [1]
      = (Except.error "boom",
         { recomputations := 1, innerState := ⟨none, none⟩,
           outerState := ⟨none, none⟩ }) :=
  ⟨rfl,
   claim_C9 [fun l => l.headD 0] (fun _ => Except.error "boom")
     defaultEqualityCheck initSelectorState [1] "boom" rfl rfl rfl⟩

/- ## Dynamically typed creator arguments (`getDependencies`, `createSelector`) -/

/-- A JavaScript value as it can be passed to the selector creator: a
callable (carrying its behaviour on argument lists drawn from the value
universe `V`), an array of further such values, or one of the remaining
primitive/object shapes distinguished by `typeof`. -/
inductive DepArg (V : Type) where
  | func : (List V → V) → DepArg V
  | arr : List (DepArg V) → DepArg V
  | obj : DepArg V
  | null : DepArg V
  | undefined : DepArg V
  | str : String → DepArg V
  | num : Int → DepArg V
  | boolean : Bool → DepArg V

/-- JavaScript's `typeof` on the modelled values (note `typeof null` and
`typeof []` are both `"object"`). -/
def jsTypeof {V : Type} : DepArg V → String
  | DepArg.func _ => "function"
  | DepArg.arr _ => "object"
  | DepArg.obj => "object"
  | DepArg.null => "object"
  | DepArg.undefined => "undefined"
  | DepArg.str _ => "string"
  | DepArg.num _ => "number"
  | DepArg.boolean _ => "boolean"

/-- `Array.isArray(funcs[0]) ? funcs[0] : funcs`: the normalization step of
`getDependencies`. -/
def normalizeDeps {V : Type} (funcs : List (DepArg V)) : List (DepArg V) :=
  match funcs with
  | DepArg.arr elems :: _ => elems
  | _ => funcs

/-- `getDependencies(funcs)`: normalize, then require every dependency to
satisfy `typeof dep === 'function'`; otherwise throw the error whose message
joins the `typeof` of every dependency with `', '`. -/
def getDependencies {V : Type} (funcs : List (DepArg V)) :
    Except String (List (DepArg V)) :=
  let dependencies := normalizeDeps funcs
  if dependencies.all (fun dep => jsTypeof dep == "function") then
    Except.ok dependencies
  else
    Except.error
      ("Selector creators expect all input-selectors to be functions, "
        ++ "instead received the following types: ["
        ++ String.intercalate ", " (dependencies.map jsTypeof) ++ "]")

/-- What the selector creator closure captures after construction succeeds:
the validated dependency list and the popped trailing argument. -/
structure SelectorDef (V : Type) where
  dependencies : List (DepArg V)
  resultFunc : DepArg V

/-- The body of the function returned by `createSelectorCreator(memoize)`:
`const resultFunc = funcs.pop()` (popping an empty list yields `undefined`),
then `getDependencies(funcs)` on the remaining arguments; a validation error
propagates and no selector is returned. -/
def makeSelector {V : Type} (funcs : List (DepArg V)) :
    Except String (SelectorDef V) :=
  let resultFunc := funcs.getLast?.getD DepArg.undefined
  match getDependencies funcs.dropLast with
  | Except.error e => Except.error e
  | Except.ok dependencies => Except.ok ⟨dependencies, resultFunc⟩

/-- Calling a modelled JavaScript value: `f.apply(null, args)` succeeds for
a callable and raises a `TypeError` for everything else. -/
def applyDep {V : Type} : DepArg V → List V → Except String V
  | DepArg.func f, args => Except.ok (f args)
  | _, _ => Except.error "TypeError: not a function"

/-- Invoking a selector built by `createSelector` (inner and outer layer
both use the default comparator): the dependencies and the result function
are the stored creator arguments, applied as JavaScript calls. -/
def invokeSelectorDef {V : Type} [DecidableEq V] (sd : SelectorDef V)
    (s : SelectorState V V) (args : List V) :
    Except String (Option V) × SelectorState V V :=
  selectorStep (sd.dependencies.map applyDep) (applyDep sd.resultFunc)
    defaultEqualityCheck s args

theorem collectParams_map_func {V : Type} (fs : List (List V → V))
    (args : List V) :
    collectParams ((fs.map DepArg.func).map applyDep) args
      = Except.ok (fs.map fun f => f args) := by
  induction fs with
  | nil => rfl
  | cons f rest ih =>
      simp [collectParams, applyDep] at ih ⊢
      rw [ih]

/-- C5: whenever the (normalized) dependency list handed to the selector
creator contains a non-callable entry, construction throws before any
selector is returned, and the message lists `typeof` of every supplied
dependency, in order, comma-separated. -/
theorem claim_C5 {V : Type} (depArgs : List (DepArg V)) (rfArg : DepArg V)
    (h : ∃ d ∈ normalizeDeps depArgs, jsTypeof d ≠ "function") :
    makeSelector (depArgs ++ [rfArg])
      = Except.error
        ("Selector creators expect all input-selectors to be functions, "
          ++ "instead received the following types: ["
          ++ String.intercalate ", " ((normalizeDeps depArgs).map jsTypeof)
          ++ "]") := by
  obtain ⟨d, hd, hdty⟩ := h
  have hall : (normalizeDeps depArgs).all
      (fun dep => jsTypeof dep == "function") = false := by
    rw [Bool.eq_false_iff]
    intro hcontra
    rw [List.all_eq_true] at hcontra
    have := hcontra d hd
    rw [beq_iff_eq] at this
    exact hdty this
  rw [makeSelector, List.dropLast_concat, getDependencies]
  simp only [hall]
  rfl

theorem claim_C5_witness :
    (∃ d ∈ normalizeDeps [DepArg.func (fun l => l.headD (0 : Nat)),
        DepArg.str "hi"], jsTypeof d ≠ "function") ∧
    makeSelector ([DepArg.func (fun l => l.headD (0 : Nat)),
        DepArg.str "hi"] ++ [DepArg.func (fun l => l.headD 0)])
      = Except.error
        ("Selector creators expect all input-selectors to be functions, "
          ++ "instead received the following types: [function, string]") :=
  ⟨⟨DepArg.str "hi",
    List.mem_cons_of_mem _ (List.mem_cons_self _ _), by decide⟩,
   claim_C5 [DepArg.func (fun l => l.headD 0), DepArg.str "hi"]
     (DepArg.func (fun l => l.headD 0))
     ⟨DepArg.str "hi",
      List.mem_cons_of_mem _ (List.mem_cons_self _ _), by decide⟩⟩

/-- C10: the creator validates only the dependency arguments, never the
trailing combining argument: with callable dependencies and a non-callable
last argument a selector is returned without throwing, and the invalid
combiner only raises once that selector is invoked (its first call always
reaches the combiner). -/
theorem claim_C10 {V : Type} [DecidableEq V] (fs : List (List V → V))
    (rfArg : DepArg V) (hrf : jsTypeof rfArg ≠ "function") (args : List V) :
    makeSelector (fs.map DepArg.func ++ [rfArg])
      = Except.ok ⟨fs.map DepArg.func, rfArg⟩ ∧
    (invokeSelectorDef ⟨fs.map DepArg.func, rfArg⟩ initSelectorState
        args).1 = Except.error "TypeError: not a function" := by
  have happ : applyDep rfArg (fs.map fun f => f args)
      = Except.error "TypeError: not a function" := by
    cases rfArg <;> first | rfl | exact absurd rfl hrf
  have hall2 : ((fs.map DepArg.func).all
      fun dep => jsTypeof dep == "function") = true := by
    rw [List.all_eq_true]
    intro d hd
    rw [List.mem_map] at hd
    obtain ⟨f, _, rfl⟩ := hd
    rfl
  have hnorm : normalizeDeps (fs.map DepArg.func) = fs.map DepArg.func := by
    cases fs with
    | nil => rfl
    | cons f rest => rfl
  constructor
  · rw [makeSelector, List.dropLast_concat, getDependencies]
    rw [hnorm, hall2]
    rw [List.getLast?_concat]
    rfl
  · have h := selectorStep_recompute_error
      ((fs.map DepArg.func).map applyDep) (applyDep rfArg)
      defaultEqualityCheck initSelectorState args (fs.map fun f => f args)
      "TypeError: not a function" rfl (collectParams_map_func fs args) rfl happ
    show (selectorStep ((fs.map DepArg.func).map applyDep) (applyDep rfArg)
        defaultEqualityCheck initSelectorState args).1
      = Except.error "TypeError: not a function"
    rw [h]

theorem claim_C10_witness :
    jsTypeof (DepArg.num (V := Nat) 3) ≠ "function" ∧
    makeSelector ([fun l => l.headD (0 : Nat)].map DepArg.func
        ++ [DepArg.num 3])
      = Except.ok ⟨[fun l => l.headD 0].map DepArg.func, DepArg.num 3⟩ ∧
    (invokeSelectorDef ⟨[fun l => l.headD (0 : Nat)].map DepArg.func,
        DepArg.num 3⟩ initSelectorState [1]).1
      = Except.error "TypeError: not a function" :=
  ⟨by decide,
   (claim_C10 [fun l => l.headD 0] (DepArg.num 3) (by decide) [1]).1,
   (claim_C10 [fun l => l.headD 0] (DepArg.num 3) (by decide) [1]).2⟩

/-- The validation guard at the top of `createStructuredSelector`:
`typeof selectors !== 'object'` throws the descriptive error, otherwise the
argument passes through. -/
def structuredSelectorGuard {V : Type} (selectors : DepArg V) :
    Except String (DepArg V) :=
  if jsTypeof selectors != "object" then
    Except.error
      ("createStructuredSelector expects first argument to be an object "
        ++ "where each property is a selector, instead received a "
        ++ jsTypeof selectors)
  else
    Except.ok selectors

/-- C7: a first argument whose `typeof` is not `'object'` makes the
structured-selector builder throw synchronously, naming the received type
in the message. -/
theorem claim_C7 {V : Type} (selectors : DepArg V)
    (h : jsTypeof selectors ≠ "object") :
    structuredSelectorGuard selectors
      = Except.error
        ("createStructuredSelector expects first argument to be an object "
          ++ "where each property is a selector, instead received a "
          ++ jsTypeof selectors) := by
  rw [structuredSelectorGuard]
  have : (jsTypeof selectors != "object") = true := by
    rw [bne_iff_ne]
    exact h
  rw [this]
  rfl

theorem claim_C7_witness :
    jsTypeof (DepArg.str (V := Nat) "x") ≠ "object" ∧
    structuredSelectorGuard (DepArg.str (V := Nat) "x")
      = Except.error
        ("createStructuredSelector expects first argument to be an object "
          ++ "where each property is a selector, instead received a string") :=
  ⟨by decide, claim_C7 (DepArg.str "x") (by decide)⟩

/- ## The structured selector builder (`createStructuredSelector`) -/

/-- JavaScript property assignment `composition[k] = v` on an object
modelled as an association list in key-insertion order: an existing key is
updated in place, a fresh key is appended. -/
def objSet {V : Type} (composition : List (String × V)) (k : String)
    (v : V) : List (String × V) :=
  if composition.any (fun p => p.1 == k) then
    composition.map fun p => if p.1 == k then (k, v) else p
  else
    composition ++ [(k, v)]

/-- The combining function of `createStructuredSelector`:
`values.reduce((composition, value, index) =>
\x7b composition[objectKeys[index]] = value; return composition \x7d, \x7b\x7d)`,
with the out-of-range index access `objectKeys[index]` yielding the key
`"undefined"` as in JavaScript. -/
def structuredReduce {V : Type} (objectKeys : List String) :
    List V → Nat → List (String × V) → List (String × V)
  | [], _, composition => composition
  | v :: rest, index, composition =>
      structuredReduce objectKeys rest (index + 1)
        (objSet composition (objectKeys.getD index "undefined") v)

/-- `(...values) => values.reduce(..., {})`. -/
def structuredCombiner {V : Type} (objectKeys : List String)
    (values : List V) : List (String × V) :=
  structuredReduce objectKeys values 0 []

/-- The two creator arguments `createStructuredSelector` passes on:
`objectKeys.map(key => selectors[key])` — the object's own values in key
enumeration order — and the rebuilding combiner. -/
def structuredSelectorParts {V : Type}
    (selectors : List (String × (List V → V))) :
    List (List V → Except String V)
      × (List V → Except String (List (String × V))) :=
  (wrapDeps (selectors.map Prod.snd),
   fun values =>
     Except.ok (structuredCombiner (selectors.map Prod.fst) values))

theorem objSet_fresh {V : Type} (composition : List (String × V))
    (k : String) (v : V) (h : ∀ p ∈ composition, p.1 ≠ k) :
    objSet composition k v = composition ++ [(k, v)] := by
  rw [objSet]
  have : composition.any (fun p => p.1 == k) = false := by
    rw [Bool.eq_false_iff]
    intro hcontra
    rw [List.any_eq_true] at hcontra
    obtain ⟨p, hp, hpk⟩ := hcontra
    exact h p hp (by rwa [beq_iff_eq] at hpk)
  rw [this]
  rfl

theorem structuredReduce_fresh {V : Type} (objectKeys : List String)
    (hnodup : objectKeys.Nodup) :
    ∀ (values : List V) (index : Nat) (composition : List (String × V)),
      index + values.length = objectKeys.length →
      (∀ p ∈ composition, p.1 ∈ objectKeys.take index) →
      structuredReduce objectKeys values index composition
        = composition ++ (objectKeys.drop index).zip values
  | [], index, composition, hlen, _ => by
      rw [structuredReduce, List.zip_nil_right, List.append_nil]
  | v :: rest, index, composition, hlen, hacc => by
      have hidx : index < objectKeys.length := by
        rw [List.length_cons] at hlen
        omega
      have hkey : objectKeys.getD index "undefined" = objectKeys[index] :=
        List.getD_eq_getElem objectKeys "undefined" hidx
      have hfresh : ∀ p ∈ composition, p.1 ≠ objectKeys[index] := by
        intro p hp hpk
        have hmem : objectKeys[index] ∈ objectKeys.take index := by
          rw [← hpk]
          exact hacc p hp
        have hdisj : (objectKeys.take index).Disjoint
            (objectKeys.drop index) := by
          refine List.disjoint_of_nodup_append ?_
          rwa [List.take_append_drop]
        refine hdisj hmem ?_
        rw [List.drop_eq_getElem_cons hidx]
        exact List.mem_cons_self _ _
      rw [structuredReduce, hkey, objSet_fresh composition _ v hfresh]
      have hnext := structuredReduce_fresh objectKeys hnodup rest
        (index + 1) (composition ++ [(objectKeys[index], v)])
        (by rw [List.length_cons] at hlen; omega)
        (by
          intro p hp
          rw [List.mem_append] at hp
          rw [← List.take_concat_get' objectKeys index hidx,
            List.mem_append]
          rcases hp with hp | hp
          · exact Or.inl (hacc p hp)
          · rw [List.mem_singleton] at hp
            subst hp
            exact Or.inr (List.mem_singleton.mpr rfl))
      rw [hnext, List.drop_eq_getElem_cons hidx, List.zip_cons_cons,
        List.append_assoc, List.singleton_append]

/-- With distinct keys and exactly one value per key, the reduce rebuilds
exactly the key/value pairing in key order. -/
theorem structuredCombiner_eq_zip {V : Type} (objectKeys : List String)
    (values : List V) (hnodup : objectKeys.Nodup)
    (hlen : values.length = objectKeys.length) :
    structuredCombiner objectKeys values = objectKeys.zip values := by
  rw [structuredCombiner,
    structuredReduce_fresh objectKeys hnodup values 0 [] (by omega)
      (by intro p hp; cases hp)]
  rfl

/-- C6: the structured selector, applied to any argument list, returns the
object with exactly the input mapping's keys in enumeration order, each
bound to its sub-selector's output. -/
theorem claim_C6 {V : Type} [DecidableEq V]
    (selectors : List (String × (List V → V)))
    (hnodup : (selectors.map Prod.fst).Nodup) (args : List V) :
    (selectorStep (structuredSelectorParts selectors).1
        (structuredSelectorParts selectors).2 defaultEqualityCheck
        initSelectorState args).1
      = Except.ok (some (selectors.map fun p => (p.1, p.2 args))) := by
  have hparams : collectParams (structuredSelectorParts selectors).1 args
      = Except.ok ((selectors.map Prod.snd).map fun f => f args) :=
    collectParams_wrapDeps (E := String) (selectors.map Prod.snd) args
  have hcomb : structuredCombiner (selectors.map Prod.fst)
      ((selectors.map Prod.snd).map fun f => f args)
        = selectors.map fun p => (p.1, p.2 args) := by
    rw [structuredCombiner_eq_zip _ _ hnodup (by simp), List.map_map]
    exact List.zip_map' Prod.fst
      (fun (p : String × (List V → V)) => p.2 args) selectors
  have h := selectorStep_recompute_ok (structuredSelectorParts selectors).1
    (structuredSelectorParts selectors).2 defaultEqualityCheck
    initSelectorState args ((selectors.map Prod.snd).map fun f => f args)
    (structuredCombiner (selectors.map Prod.fst)
      ((selectors.map Prod.snd).map fun f => f args))
    rfl hparams rfl (by rfl)
  rw [h, hcomb]

theorem claim_C6_witness :
    ((([("x", fun l => l.headD 0), ("y", fun _ => 5)]
        : List (String × (List Nat → Nat))).map Prod.fst).Nodup) ∧
    (selectorStep
        (structuredSelectorParts
          (([("x", fun l => l.headD 0), ("y", fun _ => 5)]
            : List (String × (List Nat → Nat))))).1
        (structuredSelectorParts
          (([("x", fun l => l.headD 0), ("y", fun _ => 5)]
            : List (String × (List Nat → Nat))))).2
        defaultEqualityCheck initSelectorState [7]).1
      = Except.ok (some [("x", 7), ("y", 5)]) :=
  ⟨by decide,
   claim_C6 ([("x", fun l => l.headD 0), ("y", fun _ => 5)]
     : List (String × (List Nat → Nat))) (by decide) [7]⟩

end Reselect
